import Mathlib

/-
Verification of the FreeNAS middleware ZFS pool service
(src/middlewared/middlewared/plugins/zfs.py) and of the alert-rename
migration (gui/system/migrations/0035_vmware_snapshot_alert.py).

The Python code is shallowly embedded: the libzfs binding is modelled as a
record of behaviours (pool lookup and the attach/detach/replace primitives,
each of which may raise a ZFSException), service methods become total Lean
functions returning the list of engine calls they issued together with the
CallError they raised, if any, and the scrub watch loop becomes a function
over the finite list of scan-state samples the loop observes.
-/

/-- A vdev node of a pool's device tree, as exposed by the libzfs binding:
a guid, a type string (for example "disk" or "mirror"), a device path
(meaningful for disk nodes) and an ordered list of children. Guids are
modelled with the same identifier type as the lookup targets, so that the
guid comparison in `find_vdev` is a genuine equality test. -/
inductive ZFSVdev where
  | mk (guid : String) (type : String) (path : String) (children : List ZFSVdev)

/-- Projection: the guid of a vdev. -/
def ZFSVdev.guid : ZFSVdev → String
  | .mk g _ _ _ => g

/-- Projection: the type string of a vdev. -/
def ZFSVdev.type : ZFSVdev → String
  | .mk _ t _ _ => t

/-- Projection: the device path of a vdev. -/
def ZFSVdev.path : ZFSVdev → String
  | .mk _ _ p _ => p

/-- Projection: the children of a vdev. -/
def ZFSVdev.children : ZFSVdev → List ZFSVdev
  | .mk _ _ _ cs => cs

/-- A pool handle: the service code only ever reads `pool.root_vdev` (the
scrub scan state is modelled separately, as the samples the watch loop
reads). -/
structure ZFSPool where
  root_vdev : ZFSVdev

/-- Python's `path.replace('/dev/', '')` on the character list of the path:
scan left to right, delete each non-overlapping occurrence of `/dev/`, keep
every other character. This is the normalization `find_vdev` applies to a
disk node's path (zfs.py line 28). -/
def stripDev : List Char → List Char
  | '/' :: 'd' :: 'e' :: 'v' :: '/' :: rest => stripDev rest
  | c :: rest => c :: stripDev rest
  | [] => []

/-- The path normalization of `find_vdev` lifted to `String`. -/
def pathNorm (s : String) : String :=
  ⟨stripDev s.data⟩

/-- Whether a character list contains an occurrence of `/dev/`. -/
def containsDev : List Char → Bool
  | '/' :: 'd' :: 'e' :: 'v' :: '/' :: _ => true
  | _ :: rest => containsDev rest
  | [] => false

mutual

/-- All nodes of a vdev's subtree: the node itself followed by all of its
descendants. -/
def subnodes : ZFSVdev → List ZFSVdev
  | .mk g t p cs => .mk g t p cs :: subnodesList cs

/-- All nodes reachable from any vdev of the list, the list's own elements
included. -/
def subnodesList : List ZFSVdev → List ZFSVdev
  | [] => []
  | v :: vs => subnodes v ++ subnodesList vs

end

/-- The set of nodes `find_vdev` searches: everything reachable from the
root vdev's children (the root node itself is never compared). -/
def treeNodes (root : ZFSVdev) : List ZFSVdev :=
  subnodesList root.children

/-- The two match rules `find_vdev` applies to a node: guid equality, or,
for disk nodes, equality of the `/dev/`-stripped path with the target. -/
def vdevMatches (vname : String) (v : ZFSVdev) : Prop :=
  v.guid = vname ∨ (v.type = "disk" ∧ pathNorm v.path = vname)

instance (vname : String) (v : ZFSVdev) : Decidable (vdevMatches vname v) := by
  unfold vdevMatches
  infer_instance

/-- The worklist loop of `find_vdev` (zfs.py lines 20-32). The Python code
keeps a list and pops from its end, appending each visited node's children
to the end; popping from the end of that list is popping the head of the
reversed list, so the stack here carries the Python list reversed: visiting
a node replaces the head with the node's children reversed. Each popped
node is checked by guid first and then, for disk nodes, by normalized
path. -/
def find_vdev_go (vname : String) : List ZFSVdev → Option ZFSVdev
  | [] => none
  | .mk g t p cs :: rest =>
    if g = vname then some (.mk g t p cs)
    else if t = "disk" ∧ pathNorm p = vname then some (.mk g t p cs)
    else find_vdev_go vname (cs.reverse ++ rest)
termination_by stack => (subnodesList stack).length
decreasing_by
  have happ : ∀ l₁ l₂ : List ZFSVdev,
      subnodesList (l₁ ++ l₂) = subnodesList l₁ ++ subnodesList l₂ := by
    intro l₁
    induction l₁ with
    | nil => intro l₂; rfl
    | cons v vs ih => intro l₂; simp [subnodesList, ih]
  have hrev : ∀ l : List ZFSVdev,
      (subnodesList l.reverse).length = (subnodesList l).length := by
    intro l
    induction l with
    | nil => rfl
    | cons v vs ih =>
      simp [List.reverse_cons, happ, subnodesList, ih]
      omega
  simp [subnodesList, subnodes, happ, hrev]

/-- Embedding of `find_vdev(pool, vname)` (zfs.py lines 12-32): search the
tree below the root vdev's children for a node whose guid equals `vname` or
which is a disk whose path, with every occurrence of `/dev/` removed,
equals `vname`; `none` is the not-found sentinel (the Python function falls
off the end of the loop and returns `None`). -/
def find_vdev (pool : ZFSPool) (vname : String) : Option ZFSVdev :=
  find_vdev_go vname pool.root_vdev.children.reverse

/-- Modelled from the spec: the normalization rule the spec's words state
for disk paths — "removing a fixed device-directory prefix and removing a
trailing encryption marker", the prefix being `/dev/` and the marker
`.eli`. Stated only to compare the spec's rule with the code's `pathNorm`;
it is not part of the source embedding. -/
def spec_normalize (s : String) : String :=
  let l₁ := if ['/', 'd', 'e', 'v', '/'].isPrefixOf s.data then
    s.data.drop 5 else s.data
  let l₂ := if ['.', 'e', 'l', 'i'].isSuffixOf l₁ then
    l₁.take (l₁.length - 4) else l₁
  ⟨l₂⟩

/-- Value of `errno.EINVAL`. -/
def EINVAL : Nat := 22

/-- Value of `errno.ENOENT`. -/
def ENOENT : Nat := 2

/-- An exception of type `libzfs.ZFSException`: the engine's own message
and numeric code. -/
structure ZFSException where
  msg : String
  code : Nat
deriving DecidableEq

/-- An error of type `middlewared.service.CallError` as raised by the
plugin: the message and the errno argument; `none` records the call sites
that pass no explicit errno (the constructor's default is defined outside
this repository excerpt). -/
structure CallError where
  errmsg : String
  errno : Option Nat
deriving DecidableEq

/-- The libzfs engine binding (`libzfs.ZFS()`), modelled as the behaviour
the plugin observes: `get` is pool lookup by name (raising a
`ZFSException` for unknown pools), and the `…Err` fields give the
exception, if any, that each mutation primitive raises when invoked on the
given vdevs (`none` meaning the primitive succeeds). -/
structure ZFS where
  get : String → Except ZFSException ZFSPool
  attachErr : ZFSVdev → ZFSVdev → Option ZFSException
  detachErr : ZFSVdev → Option ZFSException
  replaceErr : ZFSVdev → ZFSVdev → Option ZFSException

/-- One entry of `extend`'s `existing` list — the `attachvdev` dict of the
schema: a target identifier, a type string and a device path. -/
structure AttachVdev where
  target : String
  type : String
  path : String

/-- An engine call issued by a service method, recorded in issue order: a
pool lookup or one of the mutation primitives (recorded whether or not the
primitive then raised). -/
inductive Effect where
  | get (name : String)
  | attach (target : ZFSVdev) (newvdev : ZFSVdev)
  | detach (target : ZFSVdev)
  | replace (target : ZFSVdev) (newvdev : ZFSVdev)

/-- The first, validating loop of `extend` (zfs.py lines 96-100): resolve
every entry's target through `find_vdev`, replacing the identifier by the
resolved vdev; on the first failure raise `CallError` with `EINVAL`. The
source's message interpolates the local variable `target` — the result of
`find_vdev`, which is `None` on this branch — so the message is literally
`Failed to find vdev for None` whatever the identifier was. -/
def resolveTargets (pool : ZFSPool) :
    List AttachVdev → Except CallError (List (ZFSVdev × AttachVdev))
  | [] => .ok []
  | i :: rest =>
    match find_vdev pool i.target with
    | none => .error ⟨"Failed to find vdev for None", some EINVAL⟩
    | some target => (resolveTargets pool rest).map fun l => (target, i) :: l

/-- The second loop of `extend` (zfs.py lines 102-105): for each resolved
entry build a fresh leaf vdev of the entry's lower-cased type with the
entry's path and attach it to the resolved target, stopping at the first
`ZFSException`, which the surrounding handler turns into
`CallError(str(e), e.code)`. -/
def runAttaches (zfs : ZFS) :
    List (ZFSVdev × AttachVdev) → List Effect × Option CallError
  | [] => ([], none)
  | (target, i) :: rest =>
    let newvdev : ZFSVdev := .mk "" i.type.toLower i.path []
    match zfs.attachErr target newvdev with
    | some e => ([.attach target newvdev], some ⟨e.msg, some e.code⟩)
    | none =>
      let r := runAttaches zfs rest
      (.attach target newvdev :: r.1, r.2)

/-- Embedding of `zfs.pool.extend` (zfs.py lines 80-108). `new` and
`existing` are the optional list parameters (`none` models Python's
`None`). The result is the ordered list of engine calls issued together
with the `CallError` raised, if any (`none` = the call returned
normally). -/
def extend (zfs : ZFS) (name : String) (new : Option (List Unit))
    (existing : Option (List AttachVdev)) : List Effect × Option CallError :=
  if new.isNone && existing.isNone then
    ([], some ⟨"New or existing vdevs must be provided", some EINVAL⟩)
  else if new.getD [] ≠ [] then
    ([], some ⟨"Adding new vdev is not implemented yet", none⟩)
  else
    match zfs.get name with
    | .error e => ([.get name], some ⟨e.msg, some e.code⟩)
    | .ok pool =>
      match resolveTargets pool (existing.getD []) with
      | .error ce => ([.get name], some ce)
      | .ok resolved =>
        let r := runAttaches zfs resolved
        (.get name :: r.1, r.2)

/-- Embedding of `zfs.pool.detach` (zfs.py lines 111-123). -/
def detach (zfs : ZFS) (name label : String) : List Effect × Option CallError :=
  match zfs.get name with
  | .error e => ([.get name], some ⟨e.msg, some e.code⟩)
  | .ok pool =>
    match find_vdev pool label with
    | none =>
      ([.get name], some ⟨"Failed to find vdev for " ++ label, some EINVAL⟩)
    | some target =>
      match zfs.detachErr target with
      | some e => ([.get name, .detach target], some ⟨e.msg, some e.code⟩)
      | none => ([.get name, .detach target], none)

/-- Embedding of `zfs.pool.replace` (zfs.py lines 126-141): resolve
`label`, then replace it with a fresh disk vdev at path `/dev/` ++ `dev`. -/
def replaceOp (zfs : ZFS) (name label dev : String) :
    List Effect × Option CallError :=
  match zfs.get name with
  | .error e => ([.get name], some ⟨e.msg, some e.code⟩)
  | .ok pool =>
    match find_vdev pool label with
    | none =>
      ([.get name], some ⟨"Failed to find vdev for " ++ label, some EINVAL⟩)
    | some target =>
      let newvdev : ZFSVdev := .mk "" "disk" ("/dev/" ++ dev) []
      match zfs.replaceErr target newvdev with
      | some e => ([.get name, .replace target newvdev], some ⟨e.msg, some e.code⟩)
      | none => ([.get name, .replace target newvdev], none)

/-- The pool-lookup prefix of `zfs.pool.get_disks` (zfs.py lines 43-47),
which is the method's only error translation: a `ZFSException` from the
pool lookup is re-raised as `CallError(str(e), errno.ENOENT)` — the
engine's message is kept but its code is replaced by `ENOENT`. The
geom-based disk enumeration that follows involves only the external geom
collaborator and raises nothing relevant to the claims, so it is not
modelled. -/
def get_disks_lookup (zfs : ZFS) (name : String) : Option CallError :=
  match zfs.get name with
  | .error e => some ⟨e.msg, some ENOENT⟩
  | .ok _ => none

/-- The scan functions of `libzfs.ScanFunction`. -/
inductive ScanFunction where
  | NONE
  | SCRUB
  | RESILVER
deriving DecidableEq

/-- The scan states of `libzfs.ScanState`. -/
inductive ScanState where
  | NONE
  | SCANNING
  | FINISHED
  | CANCELED
deriving DecidableEq

/-- One observation of `pool.scrub` made by the watch loop at the top of an
iteration: the scan's function, state and percentage. -/
structure ScrubSample where
  function : ScanFunction
  state : ScanState
  percentage : Nat
deriving DecidableEq

/-- The `watch` loop of `zfs.pool.scrub` (zfs.py lines 156-171), run over
the successive scan-state samples the loop reads; the result is the list of
`job.set_progress(percentage, message)` reports it emits, in order. Each
iteration reads one sample and, in the source's order: stops if the scan's
function is no longer scrub; reports 100% and stops on `FINISHED`; stops
silently on `CANCELED`; reports the current percentage and polls again on
`SCANNING` (any other state polls again without reporting). An empty sample
list models a loop that has not observed anything yet. -/
def watch : List ScrubSample → List (Nat × String)
  | [] => []
  | s :: rest =>
    if s.function ≠ ScanFunction.SCRUB then []
    else if s.state = ScanState.FINISHED then [(100, "Scrub finished")]
    else if s.state = ScanState.CANCELED then []
    else if s.state = ScanState.SCANNING then
      (s.percentage, "Scrubbing") :: watch rest
    else watch rest

/-- The number of samples the watch loop reads before it stops: the number
of polls it performs on the given sample sequence. -/
def watchPolls : List ScrubSample → Nat
  | [] => 0
  | s :: rest =>
    if s.function ≠ ScanFunction.SCRUB then 1
    else if s.state = ScanState.FINISHED then 1
    else if s.state = ScanState.CANCELED then 1
    else 1 + watchPolls rest

/-- A row of the Django `Alert` model as the migration sees it: the
`source` column plus the rest of the row (`rest` stands for every other
column, none of which the migration's body mentions). -/
structure Alert (α : Type) where
  source : String
  rest : α

/-- The per-row body of the migration loop
(0035_vmware_snapshot_alert.py lines 13-14): prefix `source` with `Legacy`
when it is exactly one of the three VMWare alert names, leave the row
unchanged otherwise. -/
def renameAlert {α : Type} (alert : Alert α) : Alert α :=
  if alert.source ∈ ["VMWareLoginFailed", "VMWareSnapshotFailed",
      "VMWareSnapshotDeleteFail"] then
    { alert with source := "Legacy" ++ alert.source }
  else alert

/-- Embedding of `rename_vmware_snapshot_alert`
(0035_vmware_snapshot_alert.py lines 10-15): apply `renameAlert` to every
row; the second component counts the `alert.save()` calls, one per row
whether or not the row matched. -/
def rename_vmware_snapshot_alert {α : Type} (alerts : List (Alert α)) :
    List (Alert α) × Nat :=
  (alerts.map renameAlert, alerts.length)

/-- A one-disk pool: the root vdev has a single disk child at `/dev/da0`
with guid `g1`. -/
def tankRoot : ZFSVdev :=
  .mk "root-guid" "root" "" [.mk "g1" "disk" "/dev/da0" []]

/-- The pool handle for `tankRoot`. -/
def tankPool : ZFSPool :=
  ⟨tankRoot⟩

/-- A concrete engine: pool `tank` exists (with `tankRoot` as its tree),
any other lookup raises, and every mutation primitive succeeds. -/
def sampleZFS : ZFS where
  get := fun n =>
    if n = "tank" then .ok tankPool
    else .error ⟨"cannot open pool", 2⟩
  attachErr := fun _ _ => none
  detachErr := fun _ => none
  replaceErr := fun _ _ => none

/-- A concrete engine whose pool lookup always raises a `ZFSException`
with code 5 (EIO) — a code different from `ENOENT`. -/
def failZFS : ZFS where
  get := fun _ => .error ⟨"I/O error", 5⟩
  attachErr := fun _ _ => none
  detachErr := fun _ => none
  replaceErr := fun _ _ => none

/-- A concrete engine whose pool lookup succeeds but whose mutation
primitives all raise, each with its own message and code. -/
def primFailZFS : ZFS where
  get := fun _ => .ok tankPool
  attachErr := fun _ _ => some ⟨"attach failed", 16⟩
  detachErr := fun _ => some ⟨"detach failed", 17⟩
  replaceErr := fun _ _ => some ⟨"replace failed", 18⟩

/-- A one-disk pool whose disk sits on an encrypted provider: its path
carries the `.eli` suffix. -/
def eliPool : ZFSPool :=
  ⟨.mk "root-guid" "root" "" [.mk "g1" "disk" "/dev/da0.eli" []]⟩

theorem subnodesList_append (l₁ l₂ : List ZFSVdev) :
    subnodesList (l₁ ++ l₂) = subnodesList l₁ ++ subnodesList l₂ := by
  induction l₁ with
  | nil => rfl
  | cons v vs ih => simp [subnodesList, ih]

theorem mem_subnodesList {v : ZFSVdev} {l : List ZFSVdev} :
    v ∈ subnodesList l ↔ ∃ x ∈ l, v ∈ subnodes x := by
  induction l with
  | nil => simp [subnodesList]
  | cons x xs ih => simp [subnodesList, ih]

theorem mem_subnodesList_reverse {v : ZFSVdev} {l : List ZFSVdev} :
    v ∈ subnodesList l.reverse ↔ v ∈ subnodesList l := by
  simp [mem_subnodesList]

theorem find_vdev_go_spec (vname : String) (stack : List ZFSVdev) :
    (∀ v, find_vdev_go vname stack = some v →
      v ∈ subnodesList stack ∧ vdevMatches vname v) ∧
    (find_vdev_go vname stack = none →
      ∀ v ∈ subnodesList stack, ¬ vdevMatches vname v) := by
  induction stack using find_vdev_go.induct vname with
  | case1 =>
    simp [find_vdev_go, subnodesList]
  | case2 t p cs rest =>
    rw [find_vdev_go]
    simp only [if_pos rfl]
    refine ⟨?_, by intro h; cases h⟩
    intro v hv
    cases hv
    exact ⟨by simp [subnodesList, subnodes], Or.inl rfl⟩
  | case3 g t p cs rest hg hm =>
    rw [find_vdev_go]
    simp only [if_neg hg, if_pos hm]
    refine ⟨?_, by intro h; cases h⟩
    intro v hv
    cases hv
    exact ⟨by simp [subnodesList, subnodes], Or.inr ⟨hm.1, hm.2⟩⟩
  | case4 g t p cs rest hg hm ih =>
    rw [find_vdev_go]
    simp only [if_neg hg, if_neg hm]
    constructor
    · intro v hv
      obtain ⟨hmem, hmat⟩ := ih.1 v hv
      refine ⟨?_, hmat⟩
      rw [subnodesList_append, List.mem_append, mem_subnodesList_reverse] at hmem
      simp only [subnodesList, subnodes, List.mem_append, List.mem_cons]
      tauto
    · intro hnone v hv
      simp only [subnodesList, subnodes, List.mem_append, List.mem_cons] at hv
      rcases hv with (hv | hv) | hv
      · subst hv
        intro hmat
        rcases hmat with h | h
        · exact hg h
        · exact hm ⟨h.1, h.2⟩
      · exact ih.2 hnone v
          (by rw [subnodesList_append, List.mem_append, mem_subnodesList_reverse]
              exact Or.inl hv)
      · exact ih.2 hnone v
          (by rw [subnodesList_append, List.mem_append]; exact Or.inr hv)

/-- Soundness and completeness of `find_vdev` over the searched node set:
a returned node is in the tree below the root's children and satisfies one
of the two match rules, and the sentinel comes back only when no searched
node satisfies either rule. -/
theorem find_vdev_spec (pool : ZFSPool) (vname : String) :
    (∀ v, find_vdev pool vname = some v →
      v ∈ treeNodes pool.root_vdev ∧ vdevMatches vname v) ∧
    (find_vdev pool vname = none →
      ∀ v ∈ treeNodes pool.root_vdev, ¬ vdevMatches vname v) := by
  have h := find_vdev_go_spec vname pool.root_vdev.children.reverse
  unfold find_vdev treeNodes
  exact ⟨fun v hv => ⟨mem_subnodesList_reverse.mp (h.1 v hv).1, (h.1 v hv).2⟩,
    fun hn v hv => h.2 hn v (mem_subnodesList_reverse.mpr hv)⟩

/-- If no node of the searched tree matches, `find_vdev` returns the
sentinel. -/
theorem find_vdev_eq_none (pool : ZFSPool) (vname : String)
    (h : ∀ v ∈ treeNodes pool.root_vdev, ¬ vdevMatches vname v) :
    find_vdev pool vname = none := by
  cases hfv : find_vdev pool vname with
  | none => rfl
  | some v =>
    obtain ⟨hmem, hmat⟩ := (find_vdev_spec pool vname).1 v hfv
    exact absurd hmat (h v hmem)

theorem containsDev_cons (c : Char) (rest : List Char)
    (hne : ∀ r : List Char, c = '/' → rest = 'd' :: 'e' :: 'v' :: '/' :: r → False) :
    containsDev (c :: rest) = containsDev rest := by
  rw [containsDev.eq_def]
  split
  · rename_i heq
    exfalso
    cases heq
    exact hne _ rfl rfl
  · rename_i heq
    injection heq with h1 h2
    subst h1; subst h2
    rfl
  · rename_i heq; cases heq

theorem stripDev_cons (c : Char) (rest : List Char)
    (hne : ∀ r : List Char, c = '/' → rest = 'd' :: 'e' :: 'v' :: '/' :: r → False) :
    stripDev (c :: rest) = c :: stripDev rest := by
  rw [stripDev.eq_def]
  split
  · rename_i heq
    exfalso
    cases heq
    exact hne _ rfl rfl
  · rename_i heq
    injection heq with h1 h2
    subst h1; subst h2
    rfl
  · rename_i heq; cases heq

/-- On a character list with no occurrence of `/dev/`, `stripDev` is the
identity. -/
theorem stripDev_noop : ∀ l : List Char, containsDev l = false → stripDev l = l := by
  intro l
  induction l using stripDev.induct with
  | case1 rest ih =>
    intro h
    rw [containsDev] at h
    cases h
  | case2 c rest hne ih =>
    intro h
    rw [containsDev_cons c rest hne] at h
    rw [stripDev_cons c rest hne, ih h]
  | case3 =>
    intro _
    rfl
-- appended for test
/-- Claim C1, counterexample: with the spec's normalization (strip the
device-directory prefix and a trailing encryption marker) the disk at
`/dev/da0.eli` in `eliPool` normalizes to the target `da0`, so the claim
requires `find_vdev` to return it; the code strips only `/dev/`, not the
`.eli` marker, and returns the not-found sentinel. -/
theorem C1_find_vdev_counterexample :
    spec_normalize "/dev/da0.eli" = "da0" ∧
    ZFSVdev.mk "g1" "disk" "/dev/da0.eli" [] ∈ treeNodes eliPool.root_vdev ∧
    (ZFSVdev.mk "g1" "disk" "/dev/da0.eli" []).type = "disk" ∧
    find_vdev eliPool "da0" = none := by
  refine ⟨by decide, ?_, rfl, ?_⟩
  · simp [eliPool, treeNodes, ZFSVdev.children, subnodesList, subnodes]
  · simp [find_vdev, eliPool, ZFSVdev.children, find_vdev_go, pathNorm, stripDev]

/-- Claim C1 (amended): for every pool and target, `find_vdev` returns a
vdev of the searched tree (everything below the root's children) whose guid
equals the target or which is a disk-type vdev whose normalized path equals
the target, and it returns the not-found sentinel exactly when no node of
that tree matches either rule; the normalization removes every occurrence
of the device-directory prefix `/dev/` only — no trailing encryption marker
is stripped. As a total Lean function the embedding also witnesses that
`find_vdev` never raises. -/
theorem C1_find_vdev_amended (pool : ZFSPool) (t : String) :
    (∀ v, find_vdev pool t = some v →
      v ∈ treeNodes pool.root_vdev ∧
        (v.guid = t ∨ (v.type = "disk" ∧ pathNorm v.path = t))) ∧
    (find_vdev pool t = none ↔
      ∀ v ∈ treeNodes pool.root_vdev,
        ¬(v.guid = t ∨ (v.type = "disk" ∧ pathNorm v.path = t))) := by
  have h := find_vdev_spec pool t
  refine ⟨h.1, ⟨h.2, fun hall => find_vdev_eq_none pool t hall⟩⟩

/-- Claim C1 witness: the amended theorem applied to the concrete pool
`tankPool` and target `da0`, on which `find_vdev` returns the disk. -/
theorem C1_find_vdev_amended_witness :
    ZFSVdev.mk "g1" "disk" "/dev/da0" [] ∈ treeNodes tankPool.root_vdev ∧
    ((ZFSVdev.mk "g1" "disk" "/dev/da0" []).guid = "da0" ∨
      ((ZFSVdev.mk "g1" "disk" "/dev/da0" []).type = "disk" ∧
        pathNorm (ZFSVdev.mk "g1" "disk" "/dev/da0" []).path = "da0")) :=
  (C1_find_vdev_amended tankPool "da0").1 _
    (by simp [find_vdev, tankPool, tankRoot, ZFSVdev.children, find_vdev_go,
      pathNorm, stripDev])

/-- Claim C4, counterexample: the code's normalization (Python
`replace('/dev/', '')`) is not idempotent — deleting every occurrence of
`/dev/` from `/de/dev/v/` yields `/dev/`, which a second normalization
deletes entirely. -/
theorem C4_pathNorm_counterexample :
    pathNorm "/de/dev/v/" = "/dev/" ∧
    pathNorm (pathNorm "/de/dev/v/") = "" ∧
    pathNorm (pathNorm "/de/dev/v/") ≠ pathNorm "/de/dev/v/" := by
  decide

/-- Claim C4 (amended): the normalization is a no-op on any path containing
no occurrence of `/dev/`; consequently it is idempotent on every path whose
normalized form contains no occurrence of `/dev/`. (Full idempotence fails:
removing every occurrence of `/dev/` can create a new occurrence.) -/
theorem C4_pathNorm_amended :
    (∀ l : List Char, containsDev l = false → stripDev l = l) ∧
    (∀ s : String, containsDev (pathNorm s).data = false →
      pathNorm (pathNorm s) = pathNorm s) := by
  refine ⟨stripDev_noop, fun s h => ?_⟩
  show (⟨stripDev (pathNorm s).data⟩ : String) = pathNorm s
  rw [stripDev_noop _ h]

/-- Claim C4 witness: the amended idempotence applied to the concrete path
`/dev/ada0`, whose normalized form `ada0` contains no `/dev/`. -/
theorem C4_pathNorm_amended_witness :
    pathNorm (pathNorm "/dev/ada0") = pathNorm "/dev/ada0" :=
  C4_pathNorm_amended.2 "/dev/ada0" (by decide)

/-- Claim C3: the scrub monitor loop reports the current percentage and
keeps polling while the state is `SCANNING`; on `FINISHED` it reports 100%
(message `Scrub finished`) and stops after that single poll; on `CANCELED`
it stops after that poll without any completion report. In particular, the
sample sequence Scanning(10), Scanning(55), Finished emits exactly 10, 55,
100 in that order and reads no sample beyond the third, and the sequence
Scanning(30), Canceled emits exactly 30 and reads no sample beyond the
second. -/
theorem C3_watch :
    (∀ (s : ScrubSample) (rest : List ScrubSample),
      s.function = ScanFunction.SCRUB → s.state = ScanState.SCANNING →
      watch (s :: rest) = (s.percentage, "Scrubbing") :: watch rest ∧
        watchPolls (s :: rest) = 1 + watchPolls rest) ∧
    (∀ (s : ScrubSample) (rest : List ScrubSample),
      s.function = ScanFunction.SCRUB → s.state = ScanState.FINISHED →
      watch (s :: rest) = [(100, "Scrub finished")] ∧
        watchPolls (s :: rest) = 1) ∧
    (∀ (s : ScrubSample) (rest : List ScrubSample),
      s.function = ScanFunction.SCRUB → s.state = ScanState.CANCELED →
      watch (s :: rest) = [] ∧ watchPolls (s :: rest) = 1) ∧
    (∀ extra : List ScrubSample,
      watch ([⟨ScanFunction.SCRUB, ScanState.SCANNING, 10⟩,
          ⟨ScanFunction.SCRUB, ScanState.SCANNING, 55⟩,
          ⟨ScanFunction.SCRUB, ScanState.FINISHED, 100⟩] ++ extra) =
        [(10, "Scrubbing"), (55, "Scrubbing"), (100, "Scrub finished")] ∧
      watchPolls ([⟨ScanFunction.SCRUB, ScanState.SCANNING, 10⟩,
          ⟨ScanFunction.SCRUB, ScanState.SCANNING, 55⟩,
          ⟨ScanFunction.SCRUB, ScanState.FINISHED, 100⟩] ++ extra) = 3) ∧
    (∀ extra : List ScrubSample,
      watch ([⟨ScanFunction.SCRUB, ScanState.SCANNING, 30⟩,
          ⟨ScanFunction.SCRUB, ScanState.CANCELED, 30⟩] ++ extra) =
        [(30, "Scrubbing")] ∧
      watchPolls ([⟨ScanFunction.SCRUB, ScanState.SCANNING, 30⟩,
          ⟨ScanFunction.SCRUB, ScanState.CANCELED, 30⟩] ++ extra) = 2) := by
  refine ⟨?_, ?_, ?_, ?_, ?_⟩
  · intro s rest hf hs
    constructor <;> simp [watch, watchPolls, hf, hs]
  · intro s rest hf hs
    constructor <;> simp [watch, watchPolls, hf, hs]
  · intro s rest hf hs
    constructor <;> simp [watch, watchPolls, hf, hs]
  · intro extra
    constructor <;> rfl
  · intro extra
    constructor <;> rfl

/-- Claim C3 witness: the scanning and terminal steps of the monitor
applied to concrete samples. -/
theorem C3_watch_witness :
    watch [⟨ScanFunction.SCRUB, ScanState.SCANNING, 42⟩,
      ⟨ScanFunction.SCRUB, ScanState.FINISHED, 42⟩] =
      [(42, "Scrubbing"), (100, "Scrub finished")] := by
  have h1 := C3_watch.1 ⟨ScanFunction.SCRUB, ScanState.SCANNING, 42⟩
    [⟨ScanFunction.SCRUB, ScanState.FINISHED, 42⟩] rfl rfl
  have h2 := C3_watch.2.1 ⟨ScanFunction.SCRUB, ScanState.FINISHED, 42⟩ [] rfl rfl
  rw [h1.1, h2.1]

/-- Claim C7: whenever `new` is supplied and non-empty, `extend` fails with
the not-implemented error (`Adding new vdev is not implemented yet`, raised
with no errno) before issuing any engine call at all: no pool lookup, no
target resolution and no attach happens, whatever `existing` contains. -/
theorem C7_extend_new_not_implemented (zfs : ZFS) (name : String) (u : Unit)
    (l : List Unit) (existing : Option (List AttachVdev)) :
    extend zfs name (some (u :: l)) existing =
      ([], some ⟨"Adding new vdev is not implemented yet", none⟩) := by
  simp [extend]

/-- Claim C10: the migration re-saves every alert row (the save count
equals the row count), rewrites the rows pointwise with `renameAlert`, and
`renameAlert` prefixes `source` with `Legacy` exactly on the three VMWare
source names while leaving the rest of every row — and the `source` of
every non-matching row — unchanged. -/
theorem C10_rename_alert {α : Type} (alerts : List (Alert α)) :
    (rename_vmware_snapshot_alert alerts).2 = alerts.length ∧
    (rename_vmware_snapshot_alert alerts).1 = alerts.map renameAlert ∧
    (∀ a : Alert α,
      (renameAlert a).rest = a.rest ∧
      (renameAlert a).source =
        if a.source ∈ ["VMWareLoginFailed", "VMWareSnapshotFailed",
            "VMWareSnapshotDeleteFail"] then "Legacy" ++ a.source
        else a.source) := by
  refine ⟨rfl, rfl, fun a => ?_⟩
  by_cases h : a.source ∈ ["VMWareLoginFailed", "VMWareSnapshotFailed",
    "VMWareSnapshotDeleteFail"]
  · simp [renameAlert, h]
  · simp [renameAlert, h]

/-- Claim C2, code evaluated at the failing input: on the pool `tank`
(whose only vdev is the disk `da0`) with one resolvable entry (`da0`) and
one unresolvable entry (`missing`), `extend` aborts with `EINVAL` before
any attach — but the message is literally `Failed to find vdev for None`:
the source interpolates the local variable holding the `find_vdev` result,
which is `None` on that branch, instead of the offending identifier. -/
theorem C2_extend_message_bug :
    extend sampleZFS "tank" none
      (some [⟨"da0", "DISK", "/dev/da1"⟩, ⟨"missing", "DISK", "/dev/da2"⟩]) =
      ([.get "tank"], some ⟨"Failed to find vdev for None", some EINVAL⟩) := by
  simp [extend, sampleZFS, tankPool, tankRoot, resolveTargets, find_vdev,
    ZFSVdev.children, find_vdev_go, pathNorm, stripDev, Except.map]

/-- Claim C5, counterexample: calling `extend` on pool `tank` with both
parameters supplied as empty lists does not fail — the source only raises
`EINVAL` when both parameters are absent (`None`), and an empty list is not
`None` — so the call succeeds, issuing only the pool lookup and no
mutation. -/
theorem C5_extend_counterexample :
    extend sampleZFS "tank" (some []) (some []) = ([.get "tank"], none) := by
  simp [extend, sampleZFS, resolveTargets, runAttaches]

/-- Claim C5 (amended): `extend` fails with the invalid-argument error
(`New or existing vdevs must be provided`, `EINVAL`) and issues no engine
call at all exactly when both parameters are absent (`None`); when both are
supplied but empty, it succeeds after only the pool lookup, performing no
mutation. -/
theorem C5_extend_amended :
    (∀ (zfs : ZFS) (name : String),
      extend zfs name none none =
        ([], some ⟨"New or existing vdevs must be provided", some EINVAL⟩)) ∧
    (∀ (zfs : ZFS) (name : String) (pool : ZFSPool),
      zfs.get name = .ok pool →
      extend zfs name (some []) (some []) = ([.get name], none)) := by
  constructor
  · intro zfs name
    rfl
  · intro zfs name pool h
    simp [extend, h, resolveTargets, runAttaches]

/-- Claim C5 witness: the amended theorem applied to the concrete engine
`sampleZFS` and pool `tank`. -/
theorem C5_extend_amended_witness :
    extend sampleZFS "nopool" none none =
      ([], some ⟨"New or existing vdevs must be provided", some EINVAL⟩) ∧
    extend sampleZFS "tank" (some []) (some []) = ([.get "tank"], none) :=
  ⟨C5_extend_amended.1 sampleZFS "nopool",
    C5_extend_amended.2 sampleZFS "tank" tankPool (by simp [sampleZFS])⟩

/-- Claim C8: on an existing pool, `detach` with a label that matches no
node of the vdev tree (neither by guid nor as a disk by normalized path)
fails with `EINVAL` and the message naming the label, and the engine's
detach primitive is never called — the only engine call is the pool
lookup. -/
theorem C8_detach_not_found (zfs : ZFS) (name label : String) (pool : ZFSPool)
    (hget : zfs.get name = .ok pool)
    (habs : ∀ v ∈ treeNodes pool.root_vdev, ¬ vdevMatches label v) :
    detach zfs name label =
      ([.get name], some ⟨"Failed to find vdev for " ++ label, some EINVAL⟩) := by
  have hnone := find_vdev_eq_none pool label habs
  simp [detach, hget, hnone]

/-- Claim C8 witness: `detach` on pool `tank` with the absent label `nope`. -/
theorem C8_detach_not_found_witness :
    detach sampleZFS "tank" "nope" =
      ([.get "tank"], some ⟨"Failed to find vdev for " ++ "nope", some EINVAL⟩) :=
  C8_detach_not_found sampleZFS "tank" "nope" tankPool (by simp [sampleZFS])
    (by decide)

/-- Claim C6, counterexample: the engine of `failZFS` rejects the pool
lookup with its own code 5 (EIO), yet the error disk enumeration surfaces
carries code `ENOENT` (2): `get_disks` re-codes engine failures, so the
engine's code is not always preserved. -/
theorem C6_error_code_counterexample :
    failZFS.get "tank" = .error ⟨"I/O error", 5⟩ ∧
    get_disks_lookup failZFS "tank" = some ⟨"I/O error", some ENOENT⟩ ∧
    ENOENT ≠ 5 := by
  refine ⟨rfl, rfl, by decide⟩

/-- Claim C6 (amended): `extend`, `detach` and `replace` surface every
engine failure — from the pool lookup as well as from the attach, detach
and replace primitives — as a `CallError` carrying the engine's own message
and code; disk enumeration keeps the engine's message but replaces the code
with `ENOENT` on pool-lookup failure. -/
theorem C6_error_codes_amended :
    (∀ (zfs : ZFS) (name : String) (existing : List AttachVdev)
      (e : ZFSException), zfs.get name = .error e →
      extend zfs name none (some existing) =
        ([.get name], some ⟨e.msg, some e.code⟩)) ∧
    (∀ (zfs : ZFS) (name label : String) (e : ZFSException),
      zfs.get name = .error e →
      detach zfs name label = ([.get name], some ⟨e.msg, some e.code⟩)) ∧
    (∀ (zfs : ZFS) (name label dev : String) (e : ZFSException),
      zfs.get name = .error e →
      replaceOp zfs name label dev = ([.get name], some ⟨e.msg, some e.code⟩)) ∧
    (∀ (zfs : ZFS) (name label : String) (pool : ZFSPool) (target : ZFSVdev)
      (e : ZFSException), zfs.get name = .ok pool →
      find_vdev pool label = some target → zfs.detachErr target = some e →
      (detach zfs name label).2 = some ⟨e.msg, some e.code⟩) ∧
    (∀ (zfs : ZFS) (target : ZFSVdev) (i : AttachVdev)
      (rest : List (ZFSVdev × AttachVdev)) (e : ZFSException),
      zfs.attachErr target (.mk "" i.type.toLower i.path []) = some e →
      (runAttaches zfs ((target, i) :: rest)).2 = some ⟨e.msg, some e.code⟩) ∧
    (∀ (zfs : ZFS) (name label dev : String) (pool : ZFSPool)
      (target : ZFSVdev) (e : ZFSException), zfs.get name = .ok pool →
      find_vdev pool label = some target →
      zfs.replaceErr target (.mk "" "disk" ("/dev/" ++ dev) []) = some e →
      (replaceOp zfs name label dev).2 = some ⟨e.msg, some e.code⟩) ∧
    (∀ (zfs : ZFS) (name : String) (e : ZFSException),
      zfs.get name = .error e →
      get_disks_lookup zfs name = some ⟨e.msg, some ENOENT⟩) := by
  refine ⟨?_, ?_, ?_, ?_, ?_, ?_, ?_⟩
  · intro zfs name existing e h
    simp [extend, h]
  · intro zfs name label e h
    simp [detach, h]
  · intro zfs name label dev e h
    simp [replaceOp, h]
  · intro zfs name label pool target e hget hfind herr
    simp [detach, hget, hfind, herr]
  · intro zfs target i rest e herr
    simp [runAttaches, herr]
  · intro zfs name label dev pool target e hget hfind herr
    simp [replaceOp, hget, hfind, herr]
  · intro zfs name e h
    simp [get_disks_lookup, h]

/-- Claim C6 witness: the amended theorem applied to concrete engines — a
failing pool lookup surfaced by `extend` with the engine's code 5, a
failing detach primitive surfaced with the engine's code 17, and the
`ENOENT` re-coding of disk enumeration. -/
theorem C6_error_codes_amended_witness :
    extend failZFS "tank" none (some []) =
      ([.get "tank"], some ⟨"I/O error", some 5⟩) ∧
    (detach primFailZFS "tank" "da0").2 = some ⟨"detach failed", some 17⟩ ∧
    get_disks_lookup failZFS "tank" = some ⟨"I/O error", some ENOENT⟩ :=
  ⟨C6_error_codes_amended.1 failZFS "tank" [] ⟨"I/O error", 5⟩ rfl,
    C6_error_codes_amended.2.2.2.1 primFailZFS "tank" "da0" tankPool
      (ZFSVdev.mk "g1" "disk" "/dev/da0" []) ⟨"detach failed", 17⟩ rfl
      (by simp [find_vdev, tankPool, tankRoot, ZFSVdev.children, find_vdev_go,
        pathNorm, stripDev])
      rfl,
    C6_error_codes_amended.2.2.2.2.2.2 failZFS "tank" ⟨"I/O error", 5⟩ rfl⟩
